import Mathlib

/-!
Verification of the atm-locator-mcp location-discovery pipeline.

The development shallowly embeds the pure/deterministic core of the
repository: the Overpass endpoint pool with its retry/failover loop
(`overpassQuery`), the Nominatim geocode cache (`geocodePlace`), the
brand-matching heuristics (`looksLikeBoaAtm`, in its two source variants),
the haversine distance (`haversineMeters`, with JS floats modelled as real
numbers), and the distance ranking/truncation pipelines (`findAtms`,
`findBoaAtms`, `serpApiMapsSearch`).  Network effects are embedded by
passing the upstream response as an explicit argument; the mutable geocode
cache is embedded by explicit state passing.  JS string operations are
modelled on `List Char` so that concrete instances evaluate by `decide`.
-/

/-! ## JS string primitives -/

/-- JS `String.prototype.toLowerCase` (ASCII fragment, as used by the source). -/
def jsLower (s : String) : String := ⟨s.data.map Char.toLower⟩

/-- JS `String.prototype.trim`: strip whitespace from both ends. -/
def jsTrim (s : String) : String :=
  ⟨(((s.data.dropWhile Char.isWhitespace).reverse).dropWhile Char.isWhitespace).reverse⟩

/-- JS `t.includes(pat)`: substring containment, modelled as list infix. -/
def includes (t : String) (pat : String) : Bool := decide (pat.data <:+: t.data)

/-- JS `s.slice(0, n)`: the first `n` characters. -/
def jsSlice (s : String) (n : ℕ) : String := ⟨s.data.take n⟩

/-- JS truthiness of a possibly-absent string: `undefined`, `null` and `""`
are falsy; a JS `a || null` chain keeps the first truthy value. -/
def jsTruthy (o : Option String) : Option String :=
  match o with
  | none => none
  | some s => if s = "" then none else some s

/-! ## Brand Matcher (src/server.js lines 40-62 and src/unnamed/part_000 lines 575-600)

A SerpApi local-listing record, restricted to the fields the pipeline
reads.  Field absence (`undefined`/`null` in JS) is `none`. -/

structure SerpGps where
  latitude : Option ℝ
  longitude : Option ℝ

structure SerpItem where
  title : Option String
  name : Option String
  description : Option String
  type : Option String
  categories : Option (List String)
  address : Option String
  gps_coordinates : Option SerpGps
  place_id : Option String
  directions_link : Option String
  phone : Option String
  rating : Option ℝ
  reviews : Option ℝ
  hours : Option String
  open_state : Option String
  data_id : Option String

/-- JS `arr.join(" ")` on a string array. -/
def joinSpace (xs : List String) : String := ⟨List.intercalate [' '] (xs.map (·.data))⟩

/-- The haystack both matcher variants build:
`[title, name, description, type, categories.join(" "), address]
 .filter(Boolean).join(" | ")`.
(`server.js` writes the categories entry as
`Array.isArray(categories) ? categories.join(" ") : ""` and the part_000
variant as `categories && categories.join(" ")`; after `.filter(Boolean)`
both leave exactly the joined list when present and nothing otherwise.) -/
def hay (item : SerpItem) : String :=
  ⟨List.intercalate [' ', '|', ' ']
    ((([item.title, item.name, item.description, item.type,
        item.categories.map joinSpace,
        item.address].map (·.getD "")).filter (fun s => s ≠ "")).map (·.data))⟩

/-- Source `normalizeText(s) = String(s || "").toLowerCase()`. -/
def normalizeText (s : String) : String := jsLower s

/-- Function `looksLikeBoaAtm` from `src/server.js` (lines 40-62): brand alias AND
the literal category keyword `atm`. -/
def ServerJs.looksLikeBoaAtm (item : SerpItem) : Bool :=
  let t := normalizeText (hay item)
  let isBoa := includes t "bank of america" || includes t "bofa" ||
    includes t "bankofamerica"
  let isAtm := includes t "atm"
  isBoa && isAtm

/-- Function `looksLikeBoaAtm` from `src/unnamed/part_000` (lines 575-600): brand
alias AND (`atm` OR the context keywords `drive` / `cash`). -/
def SerpV1.looksLikeBoaAtm (item : SerpItem) : Bool :=
  let t := normalizeText (hay item)
  let isBoa := includes t "bank of america" || includes t "bofa" ||
    includes t "bankofamerica"
  let isAtm := includes t "atm"
  isBoa && (isAtm || includes t "drive" || includes t "cash")

/-! ## POI Endpoint Pool (src/unnamed/part_000 lines 337-376, `overpassQuery`)

One fetch attempt against one endpoint either yields a successfully parsed
payload, a non-2xx HTTP status with a body text, or a thrown exception
(network failure, abort, JSON parse error).  An endpoint is embedded as the
function from the attempt index (0, 1, 2 — one per entry of the backoff
delay list `[0, 600, 1200]`) to that attempt's outcome. -/

inductive OverpassAttempt (α : Type) where
  | ok (v : α)
  | httpErr (status : ℕ) (body : String)
  | exn (msg : String)

/-- The message the code builds for a non-ok response:
`` `Overpass error: ${res.status} ${txt}`.slice(0, 300) ``. -/
def overpassErrMsg (status : ℕ) (body : String) : String :=
  jsSlice ("Overpass error: " ++ Nat.repr status ++ " " ++ body) 300

/-- The error string an unsuccessful attempt leaves in `lastErr`; every
non-ok attempt (transient or not) is caught by the surrounding
`catch (e) { lastErr = e; }`. -/
def attemptErrMsg {α : Type} : OverpassAttempt α → String
  | .ok _ => ""
  | .httpErr s b => overpassErrMsg s b
  | .exn m => m

/-- The per-endpoint backoff delays of the source; one attempt is made per
entry. -/
def overpassDelays : List ℕ := [0, 600, 1200]

/-- The inner `for (const d of delays)` loop over one endpoint, threading
`lastErr`.  Note the faithful embedding of the source's control flow: a
429/504 status sets `lastErr` and continues, and any other non-ok status is
thrown *inside the try block*, so the `catch` also sets `lastErr` and the
loop continues with the same endpoint — both failure kinds behave
identically. -/
def runAttempts {α : Type} (e : ℕ → OverpassAttempt α) :
    List ℕ → Option String → Option String ⊕ α
  | [], lastErr => .inl lastErr
  | i :: is, lastErr =>
    match e i with
    | .ok v => .inr v
    | .httpErr s b => runAttempts e is (some (overpassErrMsg s b))
    | .exn m => runAttempts e is (some m)

/-- The outer `for (const endpoint of OVERPASS_ENDPOINTS)` loop. -/
def runEndpoints {α : Type} :
    List (ℕ → OverpassAttempt α) → Option String → Option String ⊕ α
  | [], lastErr => .inl lastErr
  | e :: es, lastErr =>
    match runAttempts e (List.range overpassDelays.length) lastErr with
    | .inr v => .inr v
    | .inl l => runEndpoints es l

/-- Function `overpassQuery` from `src/unnamed/part_000` lines 337-376: try each
endpoint in order for up to three attempts; on total failure
`throw lastErr || new Error("Overpass error: all endpoints failed")`. -/
def overpassQuery {α : Type} (es : List (ℕ → OverpassAttempt α)) :
    Except String α :=
  match runEndpoints es none with
  | .inr v => .ok v
  | .inl lastErr => .error (lastErr.getD "Overpass error: all endpoints failed")

/-- The first successfully parsed payload among an endpoint's three
attempts, if any. -/
def endpointSuccess {α : Type} (e : ℕ → OverpassAttempt α) : Option α :=
  match e 0 with
  | .ok v => some v
  | _ =>
    match e 1 with
    | .ok v => some v
    | _ =>
      match e 2 with
      | .ok v => some v
      | _ => none

/-! ## Geocoder (src/unnamed/part_000 lines 34-74 and 294-334, `geocodePlace`)

The Nominatim upstream response is passed explicitly: either a non-2xx
status with a body, or a parsed JSON array of entries.  The process-global
`geoCache` map is embedded as explicit state (an association list; the
1.1-second wall-clock throttle is real-time behaviour outside the
embedding and does not affect the cache contract).  The third component of
the result records whether a network call was made. -/

structure GeoResult where
  lat : ℝ
  lon : ℝ
  display_name : String

structure NominatimEntry where
  lat : ℝ
  lon : ℝ
  display_name : String

inductive GeoResponse where
  | httpErr (status : ℕ) (body : String)
  | ok (data : List NominatimEntry)

structure GeoState where
  cache : List (String × Option GeoResult)

/-- Source `query.trim().toLowerCase()` — the cache key. -/
def normalizeKey (q : String) : String := jsLower (jsTrim q)

/-- Source `` `Nominatim error: ${res.status} ${body}`.slice(0, 300) ``. -/
def nominatimErrMsg (status : ℕ) (body : String) : String :=
  jsSlice ("Nominatim error: " ++ Nat.repr status ++ " " ++ body) 300

/-- Source `data && data.length ? {lat, lon, display_name} : null`: only the
first entry of the upstream array is kept; the empty array gives the
explicit not-found marker `null`. -/
def geoResultOf : List NominatimEntry → Option GeoResult
  | [] => none
  | e :: _ => some ⟨e.lat, e.lon, e.display_name⟩

/-- Function `geocodePlace(query)`: cache check by normalized key, then the network
call; a non-ok response throws (leaving the cache untouched); an ok
response keeps only the first entry (`null` — here `none` — when the array
is empty) and stores it under the key before returning. -/
def geocodePlace (resp : GeoResponse) (query : String) (s : GeoState) :
    Except String (Option GeoResult) × GeoState × Bool :=
  let key := normalizeKey query
  match s.cache.lookup key with
  | some v => (.ok v, s, false)
  | none =>
    match resp with
    | .httpErr status body => (.error (nominatimErrMsg status body), s, true)
    | .ok data =>
      let result : Option GeoResult := geoResultOf data
      (.ok result, ⟨(key, result) :: s.cache⟩, true)

/-! ## Haversine distance (src/unnamed/part_000 lines 18-29 and 277-288)

JS 64-bit floats are modelled as real numbers; `Math.sin`, `Math.cos`,
`Math.asin`, `Math.sqrt` and `Math.PI` as their exact real counterparts. -/

noncomputable def haversineMeters (lat1 lon1 lat2 lon2 : ℝ) : ℝ :=
  let R : ℝ := 6371000
  let toRad : ℝ → ℝ := fun d => d * Real.pi / 180
  let dLat := toRad (lat2 - lat1)
  let dLon := toRad (lon2 - lon1)
  let a :=
    Real.sin (dLat / 2) ^ 2 +
      Real.cos (toRad lat1) * Real.cos (toRad lat2) * Real.sin (dLon / 2) ^ 2
  2 * R * Real.arcsin (Real.sqrt a)

/-! ## Distance & Ranker (src/unnamed/part_000 lines 378-423 `findAtms`
and lines 91-144 `findBoaAtms`)

An Overpass element; `lat`/`lon` are the direct node coordinates,
`centerLat`/`centerLon` the `center` object of aggregate shapes, each
individually optional to mirror the per-coordinate `typeof` checks. -/

structure OsmElement where
  type : String
  lat : Option ℝ
  lon : Option ℝ
  centerLat : Option ℝ
  centerLon : Option ℝ
  id : ℕ
  tags : List (String × String)

structure OsmAddress where
  street : Option String
  housenumber : Option String
  city : Option String
  state : Option String
  postcode : Option String

structure AtmItem where
  name : String
  operator : Option String
  brand : Option String
  address : OsmAddress
  lat : ℝ
  lon : ℝ
  distance_m : ℤ
  osmType : String
  osmId : ℕ
  tags : List (String × String)

/-- Source `tags.x || null`: a missing or empty tag maps to `null`. -/
def tagOrNull (tags : List (String × String)) (k : String) : Option String :=
  jsTruthy (tags.lookup k)

/-- The `.map((el) => ...)` body shared by `findAtms` and `findBoaAtms`:
pick the coordinates (direct for nodes, `center` otherwise), return `null`
when either is not a number, and otherwise build the item with its rounded
haversine distance from the origin. -/
noncomputable def atmItemOfElement (lat lon : ℝ) (el : OsmElement) : Option AtmItem :=
  let centerLat := if el.type = "node" then el.lat else el.centerLat
  let centerLon := if el.type = "node" then el.lon else el.centerLon
  match centerLat, centerLon with
  | some cLat, some cLon =>
    let tags := el.tags
    let distance_m := round (haversineMeters lat lon cLat cLon)
    some
      { name := (jsTruthy (tags.lookup "name")).getD "ATM"
        operator := tagOrNull tags "operator"
        brand := tagOrNull tags "brand"
        address :=
          { street := tagOrNull tags "addr:street"
            housenumber := tagOrNull tags "addr:housenumber"
            city := tagOrNull tags "addr:city"
            state := tagOrNull tags "addr:state"
            postcode := tagOrNull tags "addr:postcode" }
        lat := cLat
        lon := cLon
        distance_m := distance_m
        osmType := el.type
        osmId := el.id
        tags := tags }
  | _, _ => none

/-- The surviving candidates, in upstream order
(`elements.map(...).filter(Boolean)`). -/
noncomputable def atmCandidates (lat lon : ℝ) (els : List OsmElement) : List AtmItem :=
  els.filterMap (atmItemOfElement lat lon)

/-- The JS comparator `(a, b) => a.distance_m - b.distance_m` as the sort
order of a stable ascending sort. -/
def distLe (a b : AtmItem) : Bool := a.distance_m ≤ b.distance_m

/-- Function `findAtms` from `src/unnamed/part_000` lines 378-423: map, filter,
stable-sort by distance, then `.slice(0, Math.max(1, Math.min(limit, 25)))`.
The radius parameter only shapes the upstream query text, which is
embedded via the response `els`. -/
noncomputable def findAtms (lat lon radiusM : ℝ) (els : List OsmElement) (limit : ℕ) :
    List AtmItem :=
  (((atmCandidates lat lon els).mergeSort distLe).take (max 1 (min limit 25)))

/-- Function `findBoaAtms` from `src/unnamed/part_000` lines 91-144: the identical
map/filter/sort/slice pipeline over the brand-filtered Overpass query's
response. -/
noncomputable def findBoaAtms (lat lon radiusM : ℝ) (els : List OsmElement) (limit : ℕ) :
    List AtmItem :=
  (((atmCandidates lat lon els).mergeSort distLe).take (max 1 (min limit 25)))

/-! ## Discovery Orchestrator, text-query mode (src/server.js lines 74-150,
`serpApiMapsSearch`)

The SerpApi response is passed explicitly.  A maps link is embedded as a
tagged value mirroring the three URL-construction helpers rather than as a
URL string. -/

inductive MapsLink where
  | fromPlaceId (placeId : String)
  | fromLatLon (lat lon : ℝ)
  | direct (url : String)

/-- Helper `toMapsLinkFromLatLon`: `null` unless both coordinates are numbers. -/
def toMapsLinkFromLatLon (lat lon : Option ℝ) : Option MapsLink :=
  match lat, lon with
  | some a, some b => some (.fromLatLon a b)
  | _, _ => none

/-- Helper `toMapsLinkFromPlaceId`: `null` for a falsy (absent or empty) id. -/
def toMapsLinkFromPlaceId (placeId : Option String) : Option MapsLink :=
  match jsTruthy placeId with
  | some p => some (.fromPlaceId p)
  | none => none

/-- The normalized output record built per surviving raw record.  Note it
carries no distance field. -/
structure SerpOutItem where
  name : String
  address : Option String
  phone : Option String
  rating : Option ℝ
  reviews : Option ℝ
  hours : Option String
  location : Option (ℝ × ℝ)
  maps_link : Option MapsLink
  place_id : Option String
  sourceDataId : Option String
  sourceType : Option String

/-- The result envelope `{count, items, meta: {rewritten_query}}`. -/
structure SerpEnvelope where
  count : ℕ
  items : List SerpOutItem
  rewritten_query : String

inductive SerpResponse where
  | httpErr (status : ℕ) (body : String)
  | ok (local_results : Option (List SerpItem))

/-- The `.map((r) => ...)` body of `serpApiMapsSearch`. -/
def serpOutOfItem (r : SerpItem) : SerpOutItem :=
  let gps := r.gps_coordinates
  let lat := gps.bind (·.latitude)
  let lon := gps.bind (·.longitude)
  let mapsLink :=
    (toMapsLinkFromPlaceId r.place_id).orElse fun _ =>
      (toMapsLinkFromLatLon lat lon).orElse fun _ =>
        (jsTruthy r.directions_link).map .direct
  { name := ((jsTruthy r.title).orElse fun _ => jsTruthy r.name).getD "Bank of America ATM"
    address := jsTruthy r.address
    phone := jsTruthy r.phone
    rating := r.rating
    reviews := r.reviews
    hours := (jsTruthy r.hours).orElse fun _ => jsTruthy r.open_state
    location :=
      match lat, lon with
      | some a, some b => some (a, b)
      | _, _ => none
    maps_link := mapsLink
    place_id := jsTruthy r.place_id
    sourceDataId := jsTruthy r.data_id
    sourceType := jsTruthy r.type }

/-- The `local_results` array of a response
(`Array.isArray(data.local_results) ? data.local_results : []`; a non-ok
response never reaches this read). -/
def serpRaw : SerpResponse → List SerpItem
  | .httpErr _ _ => []
  | .ok lr => lr.getD []

/-- Function `serpApiMapsSearch` from `src/server.js` lines 74-150: require the API
key, rewrite the query, call the upstream, filter by the brand matcher,
cap with `.slice(0, Math.max(1, Math.min(limit ?? 5, 25)))`, and map into
the envelope.  No origin is resolved and no distance is computed or
sorted on. -/
def serpApiMapsSearch (apiKey : Option String) (resp : SerpResponse)
    (userQuery : String) (limit : Option ℕ) : Except String SerpEnvelope :=
  if apiKey.getD "" = "" then .error "Missing SERPAPI_KEY env var"
  else
    let q := "Bank of America ATM near " ++ userQuery
    match resp with
    | .httpErr status body =>
      .error ("SerpApi error: " ++ Nat.repr status ++ " " ++ jsSlice body 300)
    | .ok lr =>
      let raw := lr.getD []
      let filtered :=
        (raw.filter ServerJs.looksLikeBoaAtm).take (max 1 (min (limit.getD 5) 25))
      let items := filtered.map serpOutOfItem
      .ok { count := items.length, items := items, rewritten_query := q }

/-! ## Theorems — Brand Matcher -/

/-- A SerpApi record with every field absent. -/
def emptySerpItem : SerpItem :=
  { title := none, name := none, description := none, type := none,
    categories := none, address := none, gps_coordinates := none,
    place_id := none, directions_link := none, phone := none, rating := none,
    reviews := none, hours := none, open_state := none, data_id := none }

/-- C5: for every candidate record whose concatenated, lower-cased text
contains both "bank of america" and "atm", each Brand Matcher variant
returns `true`; for every record whose text contains none of the brand
aliases ("bank of america", "bofa", "bankofamerica"), each returns
`false`, whatever category or context keywords are present. -/
theorem brand_matcher_alias_and_atm (item : SerpItem) :
    (includes (normalizeText (hay item)) "bank of america" = true →
      includes (normalizeText (hay item)) "atm" = true →
      ServerJs.looksLikeBoaAtm item = true ∧ SerpV1.looksLikeBoaAtm item = true)
  ∧ (includes (normalizeText (hay item)) "bank of america" = false →
      includes (normalizeText (hay item)) "bofa" = false →
      includes (normalizeText (hay item)) "bankofamerica" = false →
      ServerJs.looksLikeBoaAtm item = false ∧ SerpV1.looksLikeBoaAtm item = false) := by
  constructor
  · intro h1 h2
    constructor <;>
      simp [ServerJs.looksLikeBoaAtm, SerpV1.looksLikeBoaAtm, h1, h2]
  · intro h1 h2 h3
    constructor <;>
      simp [ServerJs.looksLikeBoaAtm, SerpV1.looksLikeBoaAtm, h1, h2, h3]

/-- A record titled with the brand and category in mixed case. -/
def itemBoaAtm : SerpItem := { emptySerpItem with title := some "Bank Of America ATM" }

/-- A record mentioning the category but no brand alias. -/
def itemChaseAtm : SerpItem := { emptySerpItem with title := some "Chase Bank ATM" }

/-- C5 witness: the matcher accepts a mixed-case "Bank Of America ATM"
record and rejects a "Chase Bank ATM" record, by the theorem. -/
theorem brand_matcher_alias_and_atm_witness :
    (ServerJs.looksLikeBoaAtm itemBoaAtm = true ∧ SerpV1.looksLikeBoaAtm itemBoaAtm = true)
  ∧ (ServerJs.looksLikeBoaAtm itemChaseAtm = false ∧ SerpV1.looksLikeBoaAtm itemChaseAtm = false) :=
  ⟨(brand_matcher_alias_and_atm itemBoaAtm).1 (by decide) (by decide),
   (brand_matcher_alias_and_atm itemChaseAtm).2 (by decide) (by decide) (by decide)⟩

/-- A record with a brand alias and a context keyword, but no "atm". -/
def itemDriveThru : SerpItem :=
  { emptySerpItem with title := some "Bank of America (with Drive-thru)" }

/-- C6 counterexample: on a record whose text has a brand alias and the
context keyword "drive" but lacks "atm", the `server.js` Brand Matcher
returns `false`, refuting the claim that the Brand Matcher accepts such
records: only the part_000 variant does. -/
theorem server_matcher_rejects_drive_context :
    includes (normalizeText (hay itemDriveThru)) "bank of america" = true
  ∧ includes (normalizeText (hay itemDriveThru)) "atm" = false
  ∧ includes (normalizeText (hay itemDriveThru)) "drive" = true
  ∧ ServerJs.looksLikeBoaAtm itemDriveThru = false := by decide

/-- C6 (amended): for a record with a brand alias, no "atm", and a
"drive" or "cash" context keyword, the part_000 matcher variant returns
`true` (category keyword OR context keyword), while the `server.js`
variant — which requires the literal "atm" — returns `false`. -/
theorem context_keyword_matcher (item : SerpItem)
    (hboa : (includes (normalizeText (hay item)) "bank of america" ||
        includes (normalizeText (hay item)) "bofa" ||
        includes (normalizeText (hay item)) "bankofamerica") = true)
    (hatm : includes (normalizeText (hay item)) "atm" = false)
    (hctx : includes (normalizeText (hay item)) "drive" = true ∨
        includes (normalizeText (hay item)) "cash" = true) :
    SerpV1.looksLikeBoaAtm item = true ∧ ServerJs.looksLikeBoaAtm item = false := by
  constructor
  · rcases hctx with h | h <;>
      simp [SerpV1.looksLikeBoaAtm, hboa, hatm, h]
  · simp [ServerJs.looksLikeBoaAtm, hatm]

/-- C6 witness: the amended theorem at the concrete drive-thru record. -/
theorem context_keyword_matcher_witness :
    SerpV1.looksLikeBoaAtm itemDriveThru = true
  ∧ ServerJs.looksLikeBoaAtm itemDriveThru = false :=
  context_keyword_matcher itemDriveThru (by decide) (by decide) (Or.inl (by decide))

/-- The record with each absent text field replaced by the empty string
(and an absent category list by the empty list). -/
def fillEmpty (item : SerpItem) : SerpItem :=
  { item with
    title := some (item.title.getD "")
    name := some (item.name.getD "")
    description := some (item.description.getD "")
    type := some (item.type.getD "")
    categories := some (item.categories.getD [])
    address := some (item.address.getD "") }

/-- C7: both Brand Matcher variants are total on records with missing
text fields — a missing field behaves exactly as the empty string — and
the all-absent record evaluates (to `false`) rather than faulting. -/
theorem matcher_total_missing_fields (item : SerpItem) :
    (ServerJs.looksLikeBoaAtm (fillEmpty item) = ServerJs.looksLikeBoaAtm item
      ∧ SerpV1.looksLikeBoaAtm (fillEmpty item) = SerpV1.looksLikeBoaAtm item)
  ∧ (ServerJs.looksLikeBoaAtm emptySerpItem = false
      ∧ SerpV1.looksLikeBoaAtm emptySerpItem = false) := by
  obtain ⟨t, n, d, ty, cs, ad, g, pid, dl, ph, ra, rv, ho, os, di⟩ := item
  have hhay : hay (fillEmpty ⟨t, n, d, ty, cs, ad, g, pid, dl, ph, ra, rv, ho, os, di⟩)
      = hay ⟨t, n, d, ty, cs, ad, g, pid, dl, ph, ra, rv, ho, os, di⟩ := by
    cases t <;> cases n <;> cases d <;> cases ty <;> cases cs <;> cases ad <;> rfl
  exact ⟨⟨by simp [ServerJs.looksLikeBoaAtm, hhay], by simp [SerpV1.looksLikeBoaAtm, hhay]⟩,
    by decide, by decide⟩

/-! ## Theorems — POI Endpoint Pool -/

lemma runAttempts_of_success {α : Type} (e : ℕ → OverpassAttempt α) (v : α)
    (h : endpointSuccess e = some v) (lastErr : Option String) :
    runAttempts e (List.range overpassDelays.length) lastErr = .inr v := by
  show runAttempts e [0, 1, 2] lastErr = .inr v
  unfold endpointSuccess at h
  cases h0 : e 0 <;> cases h1 : e 1 <;> cases h2 : e 2 <;>
    rw [h0, h1, h2] at h <;> simp at h <;>
    simp [runAttempts, h0, h1, h2, h]

lemma runAttempts_of_failure {α : Type} (e : ℕ → OverpassAttempt α)
    (h : endpointSuccess e = none) (lastErr : Option String) :
    runAttempts e (List.range overpassDelays.length) lastErr
      = .inl (some (attemptErrMsg (e 2))) := by
  show runAttempts e [0, 1, 2] lastErr = .inl (some (attemptErrMsg (e 2)))
  unfold endpointSuccess at h
  cases h0 : e 0 <;> cases h1 : e 1 <;> cases h2 : e 2 <;>
    rw [h0, h1, h2] at h <;> simp at h <;>
    simp [runAttempts, h0, h1, h2, attemptErrMsg]

lemma runEndpoints_cons_failure {α : Type} (x : ℕ → OverpassAttempt α)
    (es : List (ℕ → OverpassAttempt α)) (lastErr : Option String)
    (hx : endpointSuccess x = none) :
    runEndpoints (x :: es) lastErr = runEndpoints es (some (attemptErrMsg (x 2))) := by
  simp [runEndpoints, runAttempts_of_failure x hx]

lemma runEndpoints_cons_success {α : Type} (x : ℕ → OverpassAttempt α)
    (es : List (ℕ → OverpassAttempt α)) (lastErr : Option String) (v : α)
    (hx : endpointSuccess x = some v) :
    runEndpoints (x :: es) lastErr = .inr v := by
  simp [runEndpoints, runAttempts_of_success x v hx]

/-- C4: (i) the pool returns the first successful endpoint's parsed
payload, whatever the endpoints after it would do — in particular after a
prefix of endpoints that fail all three attempts (such as an endpoint
answering 504 thrice); (ii) when every endpoint fails all of its
attempts, the pool raises the last observed error, namely the error of
the final attempt of the final endpoint. -/
theorem overpass_failover_first_success :
    (∀ {α : Type} (es₁ : List (ℕ → OverpassAttempt α)) (e : ℕ → OverpassAttempt α)
        (es₂ : List (ℕ → OverpassAttempt α)) (v : α),
      (∀ x ∈ es₁, endpointSuccess x = none) → endpointSuccess e = some v →
      overpassQuery (es₁ ++ e :: es₂) = .ok v)
  ∧ (∀ {α : Type} (es : List (ℕ → OverpassAttempt α)) (e : ℕ → OverpassAttempt α),
      (∀ x ∈ es, endpointSuccess x = none) → endpointSuccess e = none →
      overpassQuery (es ++ [e]) = .error (attemptErrMsg (e 2))) := by
  have hrun : ∀ {α : Type} (es₁ rest : List (ℕ → OverpassAttempt α)),
      (∀ x ∈ es₁, endpointSuccess x = none) → ∀ lastErr,
      ∃ l, runEndpoints (es₁ ++ rest) lastErr = runEndpoints rest l := by
    intro α es₁ rest hfail
    induction es₁ with
    | nil => exact fun lastErr => ⟨lastErr, rfl⟩
    | cons x xs ih =>
      intro lastErr
      obtain ⟨l, hl⟩ := ih (fun y hy => hfail y (List.mem_cons_of_mem x hy))
        (some (attemptErrMsg (x 2)))
      refine ⟨l, ?_⟩
      rw [List.cons_append,
        runEndpoints_cons_failure x (xs ++ rest) lastErr (hfail x (List.mem_cons_self x xs)),
        hl]
  constructor
  · intro α es₁ e es₂ v hfail hsucc
    obtain ⟨l, hl⟩ := hrun es₁ (e :: es₂) hfail none
    unfold overpassQuery
    rw [hl, runEndpoints_cons_success e es₂ l v hsucc]
  · intro α es e hfail hsucc
    obtain ⟨l, hl⟩ := hrun es [e] hfail none
    unfold overpassQuery
    rw [hl, runEndpoints_cons_failure e [] l hsucc]
    rfl

/-- An endpoint answering HTTP 504 on every attempt. -/
def ep504 : ℕ → OverpassAttempt String := fun _ => .httpErr 504 "gateway timeout"

/-- An endpoint succeeding on its first attempt. -/
def epOkFirst : ℕ → OverpassAttempt String := fun _ => .ok "endpoint two payload"

/-- An endpoint answering HTTP 500 on every attempt. -/
def ep500 : ℕ → OverpassAttempt String := fun _ => .httpErr 500 "internal error"

/-- C4 witness: endpoint 1 fails with 504 on all three attempts and
endpoint 2 succeeds on its first attempt, so the pool returns endpoint
2's payload; and when both endpoints fail throughout, the last endpoint's
last attempt's error is surfaced. -/
theorem overpass_failover_first_success_witness :
    overpassQuery [ep504, epOkFirst] = .ok "endpoint two payload"
  ∧ overpassQuery [ep504, ep500] = .error (attemptErrMsg (ep500 2)) :=
  ⟨overpass_failover_first_success.1 [ep504] epOkFirst [] "endpoint two payload"
      (by intro x hx; rw [List.mem_singleton] at hx; subst hx; rfl) rfl,
    overpass_failover_first_success.2 [ep504] ep500
      (by intro x hx; rw [List.mem_singleton] at hx; subst hx; rfl) rfl⟩

/-- An endpoint answering HTTP 500 on its first attempt and succeeding on
the retries. -/
def ep500ThenOk : ℕ → OverpassAttempt String := fun i =>
  if i = 0 then .httpErr 500 "internal error" else .ok "endpoint one payload"

/-- C1: evaluation of the pool at an endpoint list whose first endpoint
answers a non-transient HTTP 500 on attempt 1 and succeeds on attempt 2.
The claim (and the source's own comment "Retry on overload-ish codes")
says the 500 abandons endpoint 1 immediately and endpoint 2 is queried
next; the code instead retries endpoint 1 — the `throw` for non-transient
statuses sits inside the `try` block and is swallowed by
`catch (e) { lastErr = e; }` — and returns endpoint 1's second-attempt
payload. -/
theorem overpass_nontransient_retried_same_endpoint :
    overpassQuery [ep500ThenOk, epOkFirst] = .ok "endpoint one payload" := by
  rfl

/-! ## Theorems — Geocoder cache -/

/-- C8: queries equal after trimming and lower-casing share one cache
entry: after a first completed call (a call that returned, hitting the
network at most once), the cache holds the returned value — including the
explicit not-found marker `none` — under the normalized key, and a second
call with an equivalent query returns that cached value with no network
call and no state change, whatever response the upstream would give. -/
theorem geocode_cache_single_network_call (resp resp2 : GeoResponse)
    (q1 q2 : String) (s : GeoState) (r : Option GeoResult)
    (hq : normalizeKey q1 = normalizeKey q2)
    (h1 : (geocodePlace resp q1 s).1 = .ok r) :
    ((geocodePlace resp q1 s).2.1).cache.lookup (normalizeKey q1) = some r
  ∧ geocodePlace resp2 q2 (geocodePlace resp q1 s).2.1
      = (.ok r, (geocodePlace resp q1 s).2.1, false) := by
  cases hc : s.cache.lookup (normalizeKey q1) with
  | some v =>
    have h1eq : geocodePlace resp q1 s = (.ok v, s, false) := by
      simp [geocodePlace, hc]
    rw [h1eq] at h1 ⊢
    simp only [Except.ok.injEq] at h1
    subst h1
    exact ⟨hc, by simp [geocodePlace, ← hq, hc]⟩
  | none =>
    cases resp with
    | httpErr status body =>
      have h1eq : geocodePlace (.httpErr status body) q1 s
          = (.error (nominatimErrMsg status body), s, true) := by
        simp [geocodePlace, hc]
      rw [h1eq] at h1
      simp at h1
    | ok data =>
      have h1eq : geocodePlace (.ok data) q1 s
          = (.ok (geoResultOf data),
              ⟨(normalizeKey q1, geoResultOf data) :: s.cache⟩, true) := by
        simp [geocodePlace, hc]
      rw [h1eq] at h1 ⊢
      simp only [Except.ok.injEq] at h1
      subst h1
      refine ⟨by simp [List.lookup], ?_⟩
      simp [geocodePlace, ← hq, List.lookup]

/-- C8 witness: a first call for `" Paris "` against an empty-result
upstream populates the cache with the not-found marker, and a second call
for the differently-cased `"paris"` returns it with no network call. -/
theorem geocode_cache_single_network_call_witness :
    ((geocodePlace (.ok []) " Paris " ⟨[]⟩).2.1).cache.lookup (normalizeKey " Paris ")
        = some none
  ∧ geocodePlace (.httpErr 500 "unreachable") "paris" (geocodePlace (.ok []) " Paris " ⟨[]⟩).2.1
      = (.ok none, (geocodePlace (.ok []) " Paris " ⟨[]⟩).2.1, false) :=
  geocode_cache_single_network_call (.ok []) (.httpErr 500 "unreachable")
    " Paris " "paris" ⟨[]⟩ none (by decide) rfl

/-- C10: a failed geocode call (non-2xx upstream status) surfaces the
error, makes the network call, and leaves the state — in particular the
cache — exactly unchanged; consequently a subsequent call with the same
query hits the network again instead of replaying the failure. -/
theorem geocode_error_leaves_cache_unchanged (status : ℕ) (body : String)
    (q : String) (s : GeoState) (resp2 : GeoResponse)
    (hmiss : s.cache.lookup (normalizeKey q) = none) :
    geocodePlace (.httpErr status body) q s
        = (.error (nominatimErrMsg status body), s, true)
  ∧ (geocodePlace resp2 q s).2.2 = true := by
  constructor
  · simp [geocodePlace, hmiss]
  · cases resp2 <;> simp [geocodePlace, hmiss]

/-- C10 witness: a 500 from the upstream on query `"paris"` with an empty
cache caches nothing and the retry calls the network again. -/
theorem geocode_error_leaves_cache_unchanged_witness :
    geocodePlace (.httpErr 500 "boom") "paris" ⟨[]⟩
        = (.error (nominatimErrMsg 500 "boom"), ⟨[]⟩, true)
  ∧ (geocodePlace (.ok []) "paris" (⟨[]⟩ : GeoState)).2.2 = true :=
  geocode_error_leaves_cache_unchanged 500 "boom" "paris" ⟨[]⟩ (.ok []) rfl

/-! ## Theorems — Haversine distance -/

lemma haversineMeters_self (lat lon : ℝ) : haversineMeters lat lon lat lon = 0 := by
  simp [haversineMeters]

/-- C9: the haversine distance from any point to itself is `0`, and the
distance is symmetric in its two points. -/
theorem haversine_self_zero_and_symmetric (lat1 lon1 lat2 lon2 : ℝ) :
    haversineMeters lat1 lon1 lat1 lon1 = 0
  ∧ haversineMeters lat1 lon1 lat2 lon2 = haversineMeters lat2 lon2 lat1 lon1 := by
  refine ⟨haversineMeters_self lat1 lon1, ?_⟩
  have hsin : ∀ x y : ℝ, Real.sin ((x - y) * Real.pi / 180 / 2) ^ 2
      = Real.sin ((y - x) * Real.pi / 180 / 2) ^ 2 := by
    intro x y
    have hx : (x - y) * Real.pi / 180 / 2 = -((y - x) * Real.pi / 180 / 2) := by ring
    rw [hx, Real.sin_neg, neg_sq]
  simp only [haversineMeters]
  rw [hsin lat2 lat1, hsin lon2 lon1,
    mul_comm (Real.cos (lat1 * Real.pi / 180)) (Real.cos (lat2 * Real.pi / 180))]

/-! ## Theorems — Distance & Ranker -/

lemma distLe_trans (a b c : AtmItem) (hab : distLe a b = true) (hbc : distLe b c = true) :
    distLe a c = true := by
  simp only [distLe, decide_eq_true_eq] at hab hbc ⊢
  omega

lemma distLe_total (a b : AtmItem) : (distLe a b || distLe b a) = true := by
  simp only [distLe, Bool.or_eq_true, decide_eq_true_eq]
  omega

/-- The three ranking properties of `sort-then-slice` over any candidate
list: the slice bounds the length, the slice of the sorted list is sorted,
and any candidate left out has distance at least that of every kept item. -/
lemma sort_slice_spec (cands : List AtmItem) (k : ℕ) :
    ((cands.mergeSort distLe).take k).length ≤ k
  ∧ List.Sorted (fun a b : AtmItem => a.distance_m ≤ b.distance_m)
      ((cands.mergeSort distLe).take k)
  ∧ ∀ x ∈ (cands.mergeSort distLe).take k, ∀ c ∈ cands,
      c ∉ (cands.mergeSort distLe).take k → x.distance_m ≤ c.distance_m := by
  have hsorted : List.Pairwise (fun a b => distLe a b = true) (cands.mergeSort distLe) :=
    List.sorted_mergeSort distLe_trans distLe_total cands
  refine ⟨List.length_take_le k _, ?_, ?_⟩
  · have := hsorted.sublist (List.take_sublist k (cands.mergeSort distLe))
    exact this.imp (fun h => by simpa [distLe] using h)
  · intro x hx c hc hcnot
    have hcsort : c ∈ cands.mergeSort distLe :=
      ((cands.mergeSort_perm distLe).mem_iff).mpr hc
    have hsplit : c ∈ (cands.mergeSort distLe).take k ++ (cands.mergeSort distLe).drop k := by
      rw [List.take_append_drop]
      exact hcsort
    have hcdrop : c ∈ (cands.mergeSort distLe).drop k := by
      rcases List.mem_append.mp hsplit with h | h
      · exact absurd h hcnot
      · exact h
    have hpairApp : List.Pairwise (fun a b => distLe a b = true)
        ((cands.mergeSort distLe).take k ++ (cands.mergeSort distLe).drop k) := by
      rw [List.take_append_drop]
      exact hsorted
    have := (List.pairwise_append.mp hpairApp).2.2 x hx c hcdrop
    simpa [distLe] using this

/-- C3: for every origin, radius, element list and limit, both ranking
pipelines (`findAtms` and `findBoaAtms`) return at most
`min 25 (max 1 limit)` items, sorted by non-decreasing `distance_m`, and
truncation happens only after sorting: every surviving candidate that is
not returned is at least as far as every returned item, so no candidate
outside the top-`limit` by distance ever appears. -/
theorem rank_sorted_bounded_truncated (lat lon radiusM : ℝ)
    (els : List OsmElement) (limit : ℕ) :
    ((findAtms lat lon radiusM els limit).length ≤ min 25 (max 1 limit)
      ∧ List.Sorted (fun a b : AtmItem => a.distance_m ≤ b.distance_m)
          (findAtms lat lon radiusM els limit)
      ∧ ∀ x ∈ findAtms lat lon radiusM els limit, ∀ c ∈ atmCandidates lat lon els,
          c ∉ findAtms lat lon radiusM els limit → x.distance_m ≤ c.distance_m)
  ∧ ((findBoaAtms lat lon radiusM els limit).length ≤ min 25 (max 1 limit)
      ∧ List.Sorted (fun a b : AtmItem => a.distance_m ≤ b.distance_m)
          (findBoaAtms lat lon radiusM els limit)
      ∧ ∀ x ∈ findBoaAtms lat lon radiusM els limit, ∀ c ∈ atmCandidates lat lon els,
          c ∉ findBoaAtms lat lon radiusM els limit → x.distance_m ≤ c.distance_m) := by
  have hk : max 1 (min limit 25) = min 25 (max 1 limit) := by omega
  have h := sort_slice_spec (atmCandidates lat lon els) (max 1 (min limit 25))
  constructor
  · exact ⟨by simpa [findAtms, hk] using h.1, by simpa [findAtms] using h.2.1,
      by simpa [findAtms] using h.2.2⟩
  · exact ⟨by simpa [findBoaAtms, hk] using h.1, by simpa [findBoaAtms] using h.2.1,
      by simpa [findBoaAtms] using h.2.2⟩

/-! ## Theorems — text-query mode (serpApiMapsSearch) -/

/-- A brand-matching listing at the given coordinates. -/
def serpBoaAt (lat lon : ℝ) : SerpItem :=
  { emptySerpItem with
    title := some "Bank of America ATM"
    gps_coordinates := some ⟨some lat, some lon⟩ }

/-- A matching listing at latitude 0, longitude 45. -/
def serpFar : SerpItem := serpBoaAt 0 45

/-- A matching listing at latitude 0, longitude 0. -/
def serpNear : SerpItem := serpBoaAt 0 0

/-- C2 counterexample: in text-query mode the emitted items keep the
upstream order and carry no distance.  With the upstream returning the
far listing (0, 45) before the near listing (0, 0), the envelope lists
them in that order, although for an origin at (0, 0) the first item's
haversine distance is strictly greater than the second's — so the items
are not in non-decreasing distance order from any resolved origin, and no
Distance & Ranker ran. -/
theorem serp_items_not_distance_ranked :
    (serpApiMapsSearch (some "key") (.ok (some [serpFar, serpNear])) "times square" none).map
        (fun env => env.items.map (fun i => i.location))
      = .ok [some (0, 45), some (0, 0)]
  ∧ haversineMeters 0 0 0 0 = 0
  ∧ 0 < haversineMeters 0 0 0 45 := by
  refine ⟨rfl, haversineMeters_self 0 0, ?_⟩
  simp only [haversineMeters]
  have e1 : ((0:ℝ) - 0) * Real.pi / 180 / 2 = 0 := by ring
  have e2 : (0:ℝ) * Real.pi / 180 = 0 := by ring
  rw [e1, e2, Real.sin_zero, Real.cos_zero]
  have h8pos : (0:ℝ) < (45 - 0) * Real.pi / 180 / 2 := by
    have := Real.pi_pos
    nlinarith
  have h8lt : ((45:ℝ) - 0) * Real.pi / 180 / 2 < Real.pi := by
    nlinarith [Real.pi_pos]
  have hsin : (0:ℝ) < Real.sin (((45:ℝ) - 0) * Real.pi / 180 / 2) :=
    Real.sin_pos_of_pos_of_lt_pi h8pos h8lt
  have harg : (0:ℝ) < (0:ℝ) ^ 2 + 1 * 1 * Real.sin (((45:ℝ) - 0) * Real.pi / 180 / 2) ^ 2 := by
    nlinarith
  have harc := Real.arcsin_pos.mpr (Real.sqrt_pos.mpr harg)
  linarith [harc]

lemma serpApiMapsSearch_ok (apiKey : String) (lr : Option (List SerpItem))
    (q : String) (limit : Option ℕ) (hk : apiKey ≠ "") :
    serpApiMapsSearch (some apiKey) (.ok lr) q limit =
      .ok ⟨((((lr.getD []).filter ServerJs.looksLikeBoaAtm).take
              (max 1 (min (limit.getD 5) 25))).map serpOutOfItem).length,
           (((lr.getD []).filter ServerJs.looksLikeBoaAtm).take
              (max 1 (min (limit.getD 5) 25))).map serpOutOfItem,
           "Bank of America ATM near " ++ q⟩ := by
  simp [serpApiMapsSearch, hk]

/-- C2 (amended): in text-query mode no Distance & Ranker runs: whenever
`serpApiMapsSearch` succeeds, its items are exactly the Brand Matcher
survivors in upstream order, truncated to the clamped limit and mapped
into the (distance-free) output shape; `count` is the item count and the
rewritten query prefixes the brand and category onto the user text. -/
theorem serp_envelope_upstream_order (apiKey : String) (resp : SerpResponse)
    (q : String) (limit : Option ℕ) (env : SerpEnvelope)
    (hk : apiKey ≠ "")
    (h : serpApiMapsSearch (some apiKey) resp q limit = .ok env) :
    env.items = (((serpRaw resp).filter ServerJs.looksLikeBoaAtm).take
        (max 1 (min (limit.getD 5) 25))).map serpOutOfItem
  ∧ env.count = env.items.length
  ∧ env.rewritten_query = "Bank of America ATM near " ++ q := by
  cases resp with
  | httpErr status body => simp [serpApiMapsSearch, hk] at h
  | ok lr =>
    rw [serpApiMapsSearch_ok apiKey lr q limit hk] at h
    simp only [Except.ok.injEq] at h
    subst h
    exact ⟨by simp [serpRaw], rfl, rfl⟩

/-- C2 witness: the amended theorem at a concrete successful call with an
empty result list. -/
theorem serp_envelope_upstream_order_witness :
    (SerpEnvelope.mk 0 [] ("Bank of America ATM near " ++ "x")).items
        = (((serpRaw (.ok (some []))).filter ServerJs.looksLikeBoaAtm).take
            (max 1 (min ((none : Option ℕ).getD 5) 25))).map serpOutOfItem
  ∧ (SerpEnvelope.mk 0 [] ("Bank of America ATM near " ++ "x")).count
        = (SerpEnvelope.mk 0 [] ("Bank of America ATM near " ++ "x")).items.length
  ∧ (SerpEnvelope.mk 0 [] ("Bank of America ATM near " ++ "x")).rewritten_query
        = "Bank of America ATM near " ++ "x" :=
  serp_envelope_upstream_order "k" (.ok (some [])) "x" none
    (SerpEnvelope.mk 0 [] ("Bank of America ATM near " ++ "x")) (by decide) rfl

/-- C3 witness: the ranking theorem's bounds at a concrete origin,
element list and limit. -/
theorem rank_sorted_bounded_truncated_witness :
    (findAtms 0 0 3000 [] 3).length ≤ min 25 (max 1 3)
  ∧ (findBoaAtms 0 0 3000 [] 3).length ≤ min 25 (max 1 3) :=
  ⟨(rank_sorted_bounded_truncated 0 0 3000 [] 3).1.1,
    (rank_sorted_bounded_truncated 0 0 3000 [] 3).2.1⟩
